import Mathlib

/-!
Verification of the booking-availability checker `src/Ai_script.py`.

Shallow embedding conventions:
* Instants (`datetime` values) are rationals, measured in minutes; a
  calendar day spans 1440 minutes, and `datetime.fromisoformat` is modelled
  on naive ISO-8601 strings (`YYYY-MM-DD`, optionally followed by
  `THH:MM` or `THH:MM:SS`).
* JSON values are the inductive `JValue`; JSON objects are association
  lists from string keys, so field names are first-class.
* The two network collaborators (Google Distance Matrix, Google Calendar)
  are oracles carried in an `Env`: the travel service maps an
  (origin, destination) query to a response document, the calendar service
  maps a (timeMin, timeMax) query to either a list of events or an
  exception.  Python exceptions are `Except.error`.
-/

namespace AiScript

/-- JSON values, as produced and consumed by the script. -/
inductive JValue : Type
  | str : String → JValue
  | num : ℚ → JValue
  | bool : Bool → JValue
  | obj : List (String × JValue) → JValue

/-! ### Character-level string helpers

Python string primitives (`str.split`, `str.lower`, digit tests) are
modelled on the character list of the Lean string so that every
definition reduces inside the kernel. -/

/-- Helper for `splitOnChar`: `acc` is the current field, reversed. -/
def splitOnCharAux (sep : Char) : List Char → List Char → List (List Char)
  | [], acc => [acc.reverse]
  | c :: rest, acc =>
    if c = sep then acc.reverse :: splitOnCharAux sep rest []
    else splitOnCharAux sep rest (c :: acc)

/-- Python `s.split(sep)` for a one-character separator. -/
def splitOnChar (sep : Char) (l : List Char) : List (List Char) :=
  splitOnCharAux sep l []

/-- Python `str.lower` on one character (ASCII letters; the job-type
table only holds ASCII keys). -/
def charLower (c : Char) : Char :=
  if 'A' ≤ c ∧ c ≤ 'Z' then Char.ofNat (c.toNat + 32) else c

/-- Python `s.lower()`. -/
def pyLower (s : String) : String :=
  ⟨s.data.map charLower⟩

/-- Association-list lookup with decidable string equality, modelling a
Python `dict` lookup. -/
def lookupStr {α : Type} (k : String) : List (String × α) → Option α
  | [] => none
  | (k', v) :: rest => if k = k' then some v else lookupStr k rest

/-- The numeric value of a string of decimal digits. -/
def digitsToNat (l : List Char) : Nat :=
  l.foldl (fun acc c => acc * 10 + (c.toNat - 48)) 0

/-! ### Modelling `datetime.fromisoformat` -/

/-- `True` on leap years, Gregorian rules (Python `calendar.isleap`). -/
def isLeapYear (y : Nat) : Bool :=
  (y % 4 == 0 && y % 100 != 0) || (y % 400 == 0)

/-- Days in a month of a given year. -/
def daysInMonth (y m : Nat) : Nat :=
  if m == 2 then (if isLeapYear y then 29 else 28)
  else if m == 4 || m == 6 || m == 9 || m == 11 then 30
  else 31

/-- Day number of a Gregorian civil date (days since 1970-01-01, the
standard civil-from-days inverse); used only as a monotone encoding of
dates into integers. -/
def daysFromCivil (y m d : Nat) : Int :=
  let y' : Int := if m <= 2 then (y : Int) - 1 else (y : Int)
  let era : Int := (if y' ≥ 0 then y' else y' - 399) / 400
  let yoe : Int := y' - era * 400
  let mp : Int := ((m : Int) + 9) % 12
  let doy : Int := (153 * mp + 2) / 5 + (d : Int) - 1
  let doe : Int := yoe * 365 + yoe / 4 - yoe / 100 + doy
  era * 146097 + doe - 719468

/-- A fixed-width all-digit field, as `fromisoformat` requires. -/
def parseFixedNat (width : Nat) (l : List Char) : Option Nat :=
  if l.length = width ∧ l.all Char.isDigit then some (digitsToNat l) else none

/-- Parse the `YYYY-MM-DD` date part; result is the civil day number. -/
def parseDate (l : List Char) : Option Int :=
  match splitOnChar '-' l with
  | [ys, ms, ds] =>
    match parseFixedNat 4 ys, parseFixedNat 2 ms, parseFixedNat 2 ds with
    | some y, some m, some d =>
      if 1 ≤ m && m ≤ 12 && 1 ≤ d && d ≤ daysInMonth y m then
        some (daysFromCivil y m d)
      else none
    | _, _, _ => none
  | _ => none

/-- Parse the `HH:MM` or `HH:MM:SS` time part; result is seconds past
midnight. -/
def parseTime (l : List Char) : Option Nat :=
  match splitOnChar ':' l with
  | [hs, ms] =>
    match parseFixedNat 2 hs, parseFixedNat 2 ms with
    | some h, some m =>
      if h ≤ 23 && m ≤ 59 then some (h * 3600 + m * 60) else none
    | _, _ => none
  | [hs, ms, ss] =>
    match parseFixedNat 2 hs, parseFixedNat 2 ms, parseFixedNat 2 ss with
    | some h, some m, some sec =>
      if h ≤ 23 && m ≤ 59 && sec ≤ 59 then
        some (h * 3600 + m * 60 + sec)
      else none
    | _, _, _ => none
  | _ => none

/-- The integer content of a naive ISO-8601 string: the civil day number
and the seconds past midnight.  A date-only string (a whole-day marker)
parses with zero seconds past midnight. -/
def fromisoParts (s : String) : Option (Int × Nat) :=
  match splitOnChar 'T' s.data with
  | [d] => (parseDate d).map (fun n => (n, 0))
  | [d, t] =>
    match parseDate d, parseTime t with
    | some n, some secs => some (n, secs)
    | _, _ => none
  | _ => none

/-- The instant, in minutes, of a parsed (day number, seconds) pair. -/
def toMinutes (p : Int × Nat) : ℚ :=
  (p.1 : ℚ) * 1440 + (p.2 : ℚ) / 60

/-- `datetime.fromisoformat` on naive ISO-8601 strings, returning the
instant in minutes (`none` models `ValueError`).  A date-only string
denotes midnight of that day. -/
def fromisoformat (s : String) : Option ℚ :=
  (fromisoParts s).map toMinutes

/-! ### The job-duration table (`JOB_DURATIONS`, lines 24-34) -/

/-- The static job-duration table, minutes per normalized job type. -/
def JOB_DURATIONS : List (String × Nat) :=
  [("pipe burst", 120),
   ("leak", 60),
   ("boiler service", 90),
   ("tap replacement", 60),
   ("electrical repair", 90),
   ("socket installation", 60),
   ("fuse replacement", 30),
   ("general maintenance", 60),
   ("painting", 120)]

/-- `get_job_duration` (line 83-84):
`JOB_DURATIONS.get(job_type.lower(), 60)`. -/
def get_job_duration (job_type : String) : Nat :=
  (lookupStr (pyLower job_type) JOB_DURATIONS).getD 60

/-! ### The Distance Matrix response and `get_travel_time` (lines 61-80) -/

/-- The `"duration"` object of a Distance Matrix element; `value` is the
travel time in seconds (`none` models a missing `"value"` key). -/
structure DurationObj where
  value : Option ℚ
  deriving DecidableEq

/-- One element of a Distance Matrix row; each field `none` models the
corresponding key being absent from the JSON document. -/
structure TravelElement where
  status : Option String
  duration : Option DurationObj
  deriving DecidableEq

/-- One row of a Distance Matrix response. -/
structure TravelRow where
  elements : Option (List TravelElement)
  deriving DecidableEq

/-- A Distance Matrix response document; `rows = none` models a missing
`"rows"` key. -/
structure TravelResponse where
  rows : Option (List TravelRow)
  deriving DecidableEq

/-- `get_travel_time` (lines 61-80), applied to the response the travel
service returned for the (origin, destination) query.  Returns minutes
(`duration.value / 60`); `Except.error` models the uncaught `KeyError`
raised when the element has status `"OK"` but no `"duration"`/`"value"`
entry, every malformed-shape case returns `0`. -/
def get_travel_time (travelService : String → String → TravelResponse)
    (origin destination : String) : Except String ℚ :=
  let res := travelService origin destination
  match res.rows with
  | none => .ok 0
  | some [] => .ok 0
  | some (row :: _) =>
    match row.elements with
    | none => .ok 0
    | some [] => .ok 0
    | some (el :: _) =>
      if el.status ≠ some "OK" then .ok 0
      else
        match el.duration with
        | none => .error "KeyError: duration"
        | some dur =>
          match dur.value with
          | none => .error "KeyError: value"
          | some v => .ok (v / 60)

/-! ### Calendar events and `get_calendar_events` (lines 86-94) -/

/-- The `start`/`end` object of a Google Calendar event: a precise
instant under `"dateTime"` or a whole-day marker under `"date"` (each
`none` when the key is absent). -/
structure EventTime where
  dateTime : Option String
  date : Option String
  deriving DecidableEq

/-- One calendar event, with its `start` and `end` objects. -/
structure Event where
  start : EventTime
  «end» : EventTime
  deriving DecidableEq

/-- `get_calendar_events` (lines 86-94): queries the calendar service for
single events ordered by start time between `start_time` and `end_time`;
a failing lookup raises (propagates as `Except.error`). -/
def get_calendar_events (calendarService : ℚ → ℚ → Except String (List Event))
    (start_time end_time : ℚ) : Except String (List Event) :=
  calendarService start_time end_time

/-! ### `find_available_slot` (lines 96-120) -/

/-- The external world of one request: the base address from the
environment and the two collaborators' responses. -/
structure Env where
  BASE_ADDRESS : String
  travelService : String → String → TravelResponse
  calendarService : ℚ → ℚ → Except String (List Event)

/-- `e['start'].get('dateTime', e['start'].get('date'))` (lines 107-108). -/
def eventTimeStr (et : EventTime) : Option String :=
  match et.dateTime with
  | some s => some s
  | none => et.date

/-- `datetime.fromisoformat(e[...].get('dateTime', e[...].get('date')))`:
`Except.error` models the `TypeError` on a `None` argument and the
`ValueError` on an unparseable string. -/
def parseEventInstant (et : EventTime) : Except String ℚ :=
  match eventTimeStr et with
  | none => .error "TypeError: fromisoformat argument must be str"
  | some s =>
    match fromisoformat s with
    | none => .error "ValueError: invalid isoformat string"
    | some t => .ok t

/-- The `conflict = any(...)` generator of lines 106-110, with Python's
left-to-right short-circuit evaluation: the event's `end` is only parsed
when its `start` is before `end_time`, and later events are not examined
once a conflicting one is found. -/
def checkConflict (events : List Event) (requested_time end_time : ℚ) :
    Except String Bool :=
  match events with
  | [] => .ok false
  | e :: rest =>
    match parseEventInstant e.start with
    | .error err => .error err
    | .ok s =>
      if s < end_time then
        match parseEventInstant e.«end» with
        | .error err => .error err
        | .ok en =>
          if en > requested_time then .ok true
          else checkConflict rest requested_time end_time
      else checkConflict rest requested_time end_time

/-- The slot dictionary literal of lines 114-120, with its exact keys. -/
def mkSlot (requested_time end_time travel_time : ℚ) (job_duration : Nat) :
    List (String × JValue) :=
  [("engineer", .str "Tom"),
   ("start", .num requested_time),
   ("end", .num end_time),
   ("travel_time_minutes", .num travel_time),
   ("job_duration_minutes", .num (job_duration : ℚ))]

/-- Tags for the outbound network calls a run performs. -/
inductive Call : Type
  | travel
  | calendar
  deriving DecidableEq

/-- `find_available_slot` (lines 96-120).  Returns the Python result
(`None` for a conflict, otherwise the slot dictionary) plus the list of
outbound calls performed, in order; an uncaught exception is
`Except.error` and aborts the run after the calls made so far. -/
def find_available_slot (env : Env)
    (job_type : String) (requested_time : ℚ) (job_address : String) :
    Except String (Option (List (String × JValue))) × List Call :=
  let start_location := env.BASE_ADDRESS
  match get_travel_time env.travelService start_location job_address with
  | .error e => (.error e, [.travel])
  | .ok travel_time =>
    let job_duration := get_job_duration job_type
    let end_time := requested_time + (travel_time + (job_duration : ℚ))
    match get_calendar_events env.calendarService requested_time end_time with
    | .error e => (.error e, [.travel, .calendar])
    | .ok events =>
      match checkConflict events requested_time end_time with
      | .error e => (.error e, [.travel, .calendar])
      | .ok true => (.ok none, [.travel, .calendar])
      | .ok false =>
        (.ok (some (mkSlot requested_time end_time travel_time job_duration)),
         [.travel, .calendar])

/-! ### Request validation and the handler (lines 53-56, 125-136) -/

/-- The validated request model `JobRequest` (lines 53-56); the
`requested_time` is the parsed instant. -/
structure JobRequest where
  job_type : String
  requested_time : ℚ
  job_address : String
  deriving DecidableEq

/-- `JobRequest(**data)` (line 129): pydantic validation of the request
body.  Each field must be present; `job_type`/`job_address` must be
strings, `requested_time` a parseable datetime string.  `Except.error`
carries the validation cause. -/
def parseJobRequest (data : List (String × JValue)) : Except String JobRequest :=
  match lookupStr "job_type" data with
  | none => .error "job_type: field required"
  | some (.str jt) =>
    match lookupStr "requested_time" data with
    | none => .error "requested_time: field required"
    | some (.str rt) =>
      match fromisoformat rt with
      | none => .error "requested_time: invalid datetime format"
      | some t =>
        match lookupStr "job_address" data with
        | none => .error "job_address: field required"
        | some (.str addr) => .ok ⟨jt, t, addr⟩
        | some _ => .error "job_address: str type expected"
    | some _ => .error "requested_time: invalid datetime format"
  | some _ => .error "job_type: str type expected"

/-- The handler's outcome: an `HTTPException` (status 400 here), an
uncaught server-side exception, or a `JSONResponse` body. -/
inductive HandlerResult : Type
  | httpError (status : Nat) (detail : String)
  | serverError (msg : String)
  | json (body : JValue)

/-- `get_open_slots` (lines 125-136): validate the body, raising a 400
`HTTPException` with the cause on failure; otherwise run
`find_available_slot` and render its result.  Paired with the outbound
calls the run performed. -/
def get_open_slots (env : Env) (data : List (String × JValue)) :
    HandlerResult × List Call :=
  match parseJobRequest data with
  | .error msg => (.httpError 400 ("Invalid input: " ++ msg), [])
  | .ok job =>
    match find_available_slot env job.job_type job.requested_time job.job_address with
    | (.error e, calls) => (.serverError e, calls)
    | (.ok none, calls) =>
      (.json (.obj [("available", .bool false),
                    ("message", .str "No slots available")]), calls)
    | (.ok (some slot), calls) =>
      (.json (.obj [("available", .bool true), ("slot", .obj slot)]), calls)

/-! ### Claim C4: `get_job_duration` is total, case-insensitive, defaults to 60 -/

/-- C4: `get_job_duration` is a total function: any job type whose
lower-cased form is absent from the table yields the default 60; any job
type whose lower-cased form is in the table yields the table value, so
the result is independent of the input's casing; in particular `"Leak"`
and `"leak"` both yield 60 and `"Pipe Burst"` yields 120. -/
theorem get_job_duration_total (jt jt' : String) (d : Nat)
    (habsent : lookupStr (pyLower jt) JOB_DURATIONS = none)
    (hknown : lookupStr (pyLower jt') JOB_DURATIONS = some d) :
    get_job_duration jt = 60
    ∧ get_job_duration jt' = d
    ∧ (∀ a b : String, pyLower a = pyLower b →
        get_job_duration a = get_job_duration b)
    ∧ get_job_duration "Leak" = 60
    ∧ get_job_duration "leak" = 60
    ∧ get_job_duration "Pipe Burst" = 120 := by
  refine ⟨?_, ?_, ?_, by decide, by decide, by decide⟩
  · simp [get_job_duration, habsent]
  · simp [get_job_duration, hknown]
  · intro a b hab
    simp [get_job_duration, hab]

/-- Witness for C4 at the unknown type `"Chimney Sweep"` and the known
type `"Pipe Burst"`. -/
theorem get_job_duration_total_witness :
    get_job_duration "Chimney Sweep" = 60 ∧ get_job_duration "Pipe Burst" = 120 := by
  have h := get_job_duration_total "Chimney Sweep" "Pipe Burst" 120
    (by decide) (by decide)
  exact ⟨h.1, h.2.1⟩

/-! ### Claim C3: malformed travel responses degrade to zero -/

/-- C3: for every travel-service response that lacks the expected
structure (missing `"rows"`, empty `"rows"`, missing or empty
`"elements"`) or whose first element's status is not `"OK"`,
`get_travel_time` returns 0 instead of raising. -/
theorem get_travel_time_degrades (ts : String → String → TravelResponse)
    (o dst : String) (row : TravelRow) (rest : List TravelRow)
    (el : TravelElement) (els : List TravelElement) :
    ((ts o dst).rows = none → get_travel_time ts o dst = .ok 0)
    ∧ ((ts o dst).rows = some [] → get_travel_time ts o dst = .ok 0)
    ∧ ((ts o dst).rows = some (row :: rest) → row.elements = none →
        get_travel_time ts o dst = .ok 0)
    ∧ ((ts o dst).rows = some (row :: rest) → row.elements = some [] →
        get_travel_time ts o dst = .ok 0)
    ∧ ((ts o dst).rows = some (row :: rest) → row.elements = some (el :: els) →
        el.status ≠ some "OK" → get_travel_time ts o dst = .ok 0) := by
  refine ⟨?_, ?_, ?_, ?_, ?_⟩ <;> intro h1
  · simp [get_travel_time, h1]
  · simp [get_travel_time, h1]
  · intro h2; simp [get_travel_time, h1, h2]
  · intro h2; simp [get_travel_time, h1, h2]
  · intro h2 h3; simp [get_travel_time, h1, h2, h3]

/-- Witness for C3: the five malformed shapes at concrete responses. -/
theorem get_travel_time_degrades_witness :
    get_travel_time (fun _ _ => ⟨none⟩) "base" "job" = .ok 0
    ∧ get_travel_time (fun _ _ => ⟨some []⟩) "base" "job" = .ok 0
    ∧ get_travel_time (fun _ _ => ⟨some [⟨none⟩]⟩) "base" "job" = .ok 0
    ∧ get_travel_time (fun _ _ => ⟨some [⟨some []⟩]⟩) "base" "job" = .ok 0
    ∧ get_travel_time
        (fun _ _ => ⟨some [⟨some [⟨some "NOT_FOUND", none⟩]⟩]⟩) "base" "job" = .ok 0 :=
  ⟨(get_travel_time_degrades (fun _ _ => ⟨none⟩) "base" "job"
      ⟨none⟩ [] ⟨none, none⟩ []).1 rfl,
   (get_travel_time_degrades (fun _ _ => ⟨some []⟩) "base" "job"
      ⟨none⟩ [] ⟨none, none⟩ []).2.1 rfl,
   (get_travel_time_degrades (fun _ _ => ⟨some [⟨none⟩]⟩) "base" "job"
      ⟨none⟩ [] ⟨none, none⟩ []).2.2.1 rfl rfl,
   (get_travel_time_degrades (fun _ _ => ⟨some [⟨some []⟩]⟩) "base" "job"
      ⟨some []⟩ [] ⟨none, none⟩ []).2.2.2.1 rfl rfl,
   (get_travel_time_degrades
      (fun _ _ => ⟨some [⟨some [⟨some "NOT_FOUND", none⟩]⟩]⟩) "base" "job"
      ⟨some [⟨some "NOT_FOUND", none⟩]⟩ [] ⟨some "NOT_FOUND", none⟩ []).2.2.2.2
      rfl rfl (by decide)⟩

/-! ### Claim C8: well-formed travel responses yield seconds / 60 -/

/-- C8: for every well-formed travel-service response (non-empty rows and
elements, first element status `"OK"`, nested duration value present),
`get_travel_time` returns the duration-in-seconds value divided by 60;
in particular 1800 seconds yield exactly 30 minutes. -/
theorem get_travel_time_well_formed (ts : String → String → TravelResponse)
    (o dst : String) (row : TravelRow) (rest : List TravelRow)
    (el : TravelElement) (els : List TravelElement) (dobj : DurationObj) (v : ℚ)
    (h1 : (ts o dst).rows = some (row :: rest))
    (h2 : row.elements = some (el :: els))
    (h3 : el.status = some "OK")
    (h4 : el.duration = some dobj)
    (h5 : dobj.value = some v) :
    get_travel_time ts o dst = .ok (v / 60)
    ∧ (v = 1800 → get_travel_time ts o dst = .ok 30) := by
  have hmain : get_travel_time ts o dst = .ok (v / 60) := by
    simp [get_travel_time, h1, h2, h3, h4, h5]
  refine ⟨hmain, fun hv => ?_⟩
  rw [hmain, hv]
  norm_num

/-- Witness for C8: a well-formed response with 1800 seconds yields
exactly 30 minutes. -/
theorem get_travel_time_well_formed_witness :
    get_travel_time
      (fun _ _ => ⟨some [⟨some [⟨some "OK", some ⟨some 1800⟩⟩]⟩]⟩) "base" "job"
      = .ok 30 :=
  (get_travel_time_well_formed
    (fun _ _ => ⟨some [⟨some [⟨some "OK", some ⟨some 1800⟩⟩]⟩]⟩) "base" "job"
    ⟨some [⟨some "OK", some ⟨some 1800⟩⟩]⟩ [] ⟨some "OK", some ⟨some 1800⟩⟩ []
    ⟨some 1800⟩ 1800 rfl rfl rfl rfl rfl).2 rfl

/-! ### Running the resolver under hypotheses on the collaborators -/

/-- Unfolding of `find_available_slot` when the travel lookup returns
`tv` and the calendar lookup returns `events`. -/
lemma find_available_slot_run (env : Env) (jt : String) (T : ℚ) (addr : String)
    (tv : ℚ) (events : List Event) (b : Bool)
    (htv : get_travel_time env.travelService env.BASE_ADDRESS addr = .ok tv)
    (hcal : env.calendarService T (T + (tv + (get_job_duration jt : ℚ)))
      = .ok events)
    (hc : checkConflict events T (T + (tv + (get_job_duration jt : ℚ))) = .ok b) :
    find_available_slot env jt T addr =
      (if b then .ok none
       else .ok (some (mkSlot T (T + (tv + (get_job_duration jt : ℚ))) tv
          (get_job_duration jt))),
       [.travel, .calendar]) := by
  unfold find_available_slot get_calendar_events
  simp only [htv, hcal, hc]
  cases b <;> simp

/-- Unfolding of `find_available_slot` when the calendar lookup raises. -/
lemma find_available_slot_run_calendar_error (env : Env) (jt : String) (T : ℚ)
    (addr : String) (tv : ℚ) (e : String)
    (htv : get_travel_time env.travelService env.BASE_ADDRESS addr = .ok tv)
    (hcal : env.calendarService T (T + (tv + (get_job_duration jt : ℚ)))
      = .error e) :
    find_available_slot env jt T addr = (.error e, [.travel, .calendar]) := by
  unfold find_available_slot get_calendar_events
  simp only [htv, hcal]

/-! ### Claim C2: the window end is `requested_time + (travel + duration)` -/

/-- C2: for every job type, requested time and address, when the travel
lookup yields `tv` and no busy interval is fetched, the resolver reports
availability with window end `requested_time + (tv + duration)` minutes;
for job type `"leak"` the duration is 60, and with travel 10 a request at
2024-01-01T09:00:00 ends at 2024-01-01T10:10:00 (70 minutes later). -/
theorem find_available_slot_window_end (env : Env) (jt : String) (T : ℚ)
    (addr : String) (tv : ℚ)
    (htv : get_travel_time env.travelService env.BASE_ADDRESS addr = .ok tv)
    (hcal : env.calendarService T (T + (tv + (get_job_duration jt : ℚ)))
      = .ok []) :
    find_available_slot env jt T addr =
      (.ok (some (mkSlot T (T + (tv + (get_job_duration jt : ℚ))) tv
        (get_job_duration jt))), [.travel, .calendar])
    ∧ get_job_duration "leak" = 60
    ∧ fromisoformat "2024-01-01T10:10:00"
        = (fromisoformat "2024-01-01T09:00:00").map (fun x => x + 70) := by
  refine ⟨?_, by decide, ?_⟩
  · have h := find_available_slot_run env jt T addr tv [] false htv hcal
      (by simp [checkConflict])
    simpa using h
  · have h1 : fromisoParts "2024-01-01T10:10:00" = some (19723, 36600) := by decide
    have h2 : fromisoParts "2024-01-01T09:00:00" = some (19723, 32400) := by decide
    simp [fromisoformat, h1, h2, toMinutes]
    norm_num

/-- Witness for C2: travel 10 minutes (600 seconds), job type `"leak"`,
an empty busy list: the window end is 70 minutes after the start. -/
theorem find_available_slot_window_end_witness :
    find_available_slot
      ⟨"1 Base Rd",
       fun _ _ => ⟨some [⟨some [⟨some "OK", some ⟨some 600⟩⟩]⟩]⟩,
       fun _ _ => .ok []⟩
      "leak" (toMinutes (19723, 32400)) "2 Job St" =
      (.ok (some (mkSlot (toMinutes (19723, 32400))
        (toMinutes (19723, 32400) + ((600 : ℚ) / 60 + (get_job_duration "leak" : ℚ)))
        ((600 : ℚ) / 60) (get_job_duration "leak"))), [.travel, .calendar]) :=
  (find_available_slot_window_end
    ⟨"1 Base Rd",
     fun _ _ => ⟨some [⟨some [⟨some "OK", some ⟨some 600⟩⟩]⟩]⟩,
     fun _ _ => .ok []⟩
    "leak" (toMinutes (19723, 32400)) "2 Job St" ((600 : ℚ) / 60)
    rfl rfl).1

/-! ### Claim C5: calendar failures propagate, travel failures degrade -/

/-- C5: a failure of the calendar lookup propagates out of
`find_available_slot` as an error (no local recovery), while a failure
of the travel lookup (here: a response with no `"rows"`) is swallowed as
zero travel time. -/
theorem find_available_slot_calendar_error (env : Env) (jt : String) (T : ℚ)
    (addr : String) (tv : ℚ) (e : String)
    (htv : get_travel_time env.travelService env.BASE_ADDRESS addr = .ok tv)
    (hcal : env.calendarService T (T + (tv + (get_job_duration jt : ℚ)))
      = .error e) :
    find_available_slot env jt T addr = (.error e, [.travel, .calendar])
    ∧ (∀ ts : String → String → TravelResponse, ∀ o dst : String,
        (ts o dst).rows = none → get_travel_time ts o dst = .ok 0) := by
  refine ⟨find_available_slot_run_calendar_error env jt T addr tv e htv hcal, ?_⟩
  intro ts o dst h
  simp [get_travel_time, h]

/-- Witness for C5: a calendar that always raises makes the resolver
propagate that error. -/
theorem find_available_slot_calendar_error_witness :
    find_available_slot
      ⟨"1 Base Rd", fun _ _ => ⟨none⟩, fun _ _ => .error "HttpError 503"⟩
      "leak" 0 "2 Job St" = (.error "HttpError 503", [.travel, .calendar]) :=
  (find_available_slot_calendar_error
    ⟨"1 Base Rd", fun _ _ => ⟨none⟩, fun _ _ => .error "HttpError 503"⟩
    "leak" 0 "2 Job St" 0 "HttpError 503" rfl rfl).1

/-! ### Claim C9: the resolver is stateless and deterministic -/

/-- C9: `find_available_slot` is modelled as a pure function of its
inputs and of the collaborators' responses, so it mutates no program
state, and two runs with identical inputs and identical collaborator
responses return identical results. -/
theorem find_available_slot_deterministic (env₁ env₂ : Env)
    (jt₁ jt₂ : String) (T₁ T₂ : ℚ) (a₁ a₂ : String)
    (henv : env₁ = env₂) (hjt : jt₁ = jt₂) (hT : T₁ = T₂) (ha : a₁ = a₂) :
    find_available_slot env₁ jt₁ T₁ a₁ = find_available_slot env₂ jt₂ T₂ a₂ := by
  rw [henv, hjt, hT, ha]

/-- Witness for C9: two identical concrete runs agree. -/
theorem find_available_slot_deterministic_witness :
    find_available_slot ⟨"1 Base Rd", fun _ _ => ⟨none⟩, fun _ _ => .ok []⟩
        "leak" 0 "2 Job St"
      = find_available_slot ⟨"1 Base Rd", fun _ _ => ⟨none⟩, fun _ _ => .ok []⟩
        "leak" 0 "2 Job St" :=
  find_available_slot_deterministic
    ⟨"1 Base Rd", fun _ _ => ⟨none⟩, fun _ _ => .ok []⟩
    ⟨"1 Base Rd", fun _ _ => ⟨none⟩, fun _ _ => .ok []⟩
    "leak" "leak" 0 0 "2 Job St" "2 Job St" rfl rfl rfl rfl

/-! ### Claim C6: validation failures give a 400 and no outbound calls -/

/-- C6: for every request body that fails validation, the handler
returns a 400 client error whose detail names the cause, and the run
performs no outbound calls at all. -/
theorem get_open_slots_validation_error (env : Env)
    (data : List (String × JValue)) (msg : String)
    (h : parseJobRequest data = .error msg) :
    get_open_slots env data = (.httpError 400 ("Invalid input: " ++ msg), []) := by
  simp [get_open_slots, h]

/-- Witness for C6: a body missing `job_address` yields a 400 naming the
field and an empty outbound-call list. -/
theorem get_open_slots_validation_error_witness :
    get_open_slots
      ⟨"1 Base Rd", fun _ _ => ⟨none⟩, fun _ _ => .ok []⟩
      [("job_type", .str "leak"), ("requested_time", .str "2024-01-01T09:00:00")]
      = (.httpError 400 "Invalid input: job_address: field required", []) :=
  get_open_slots_validation_error
    ⟨"1 Base Rd", fun _ _ => ⟨none⟩, fun _ _ => .ok []⟩
    [("job_type", .str "leak"), ("requested_time", .str "2024-01-01T09:00:00")]
    "job_address: field required" rfl

/-! ### Claim C1: the overlap test uses strict inequalities -/

/-- The busy interval of one event, when both timestamps parse. -/
def parsedInterval (e : Event) : Option (ℚ × ℚ) :=
  match parseEventInstant e.start, parseEventInstant e.«end» with
  | .ok s, .ok en => some (s, en)
  | _, _ => none

/-- The busy intervals of a fetched event list, when every event's
timestamps parse. -/
def parsedIntervals : List Event → Option (List (ℚ × ℚ))
  | [] => some []
  | e :: rest =>
    match parsedInterval e, parsedIntervals rest with
    | some p, some ps => some (p :: ps)
    | _, _ => none

/-- When every fetched event parses to a busy interval, the conflict
test reports exactly whether some busy interval `(s, en)` satisfies
`s < end_time` and `en > requested_time`. -/
lemma checkConflict_eq_any (events : List Event) (busy : List (ℚ × ℚ))
    (T E : ℚ) (h : parsedIntervals events = some busy) :
    checkConflict events T E
      = .ok (busy.any fun p => decide (p.1 < E) && decide (T < p.2)) := by
  induction events generalizing busy with
  | nil =>
    unfold parsedIntervals at h
    simp only [Option.some.injEq] at h
    subst h
    simp [checkConflict]
  | cons e rest ih =>
    unfold parsedIntervals at h
    cases hp : parsedInterval e with
    | none => rw [hp] at h; simp at h
    | some p =>
      rw [hp] at h
      cases hr : parsedIntervals rest with
      | none => rw [hr] at h; simp at h
      | some ps =>
        rw [hr] at h
        simp only [Option.some.injEq] at h
        subst h
        unfold parsedInterval at hp
        cases hs : parseEventInstant e.start with
        | error err => rw [hs] at hp; simp at hp
        | ok s =>
          rw [hs] at hp
          cases he : parseEventInstant e.«end» with
          | error err => rw [he] at hp; simp at hp
          | ok en =>
            rw [he] at hp
            simp only [Option.some.injEq] at hp
            subst hp
            unfold checkConflict
            simp only [hs]
            by_cases h1 : s < E
            · rw [if_pos h1]
              simp only [he]
              by_cases h2 : T < en
              · rw [if_pos h2]
                simp [List.any_cons, h1, h2]
              · rw [if_neg h2, ih ps hr]
                simp [List.any_cons, h1, h2]
            · rw [if_neg h1, ih ps hr]
              simp [List.any_cons, h1]

/-- C1: when the travel lookup yields `tv` and the fetched events parse
to the busy intervals `busy`, the resolver reports a conflict (returns
no slot) iff some busy interval `b` satisfies `b.start < end_time` and
`b.end > requested_time`, where
`end_time = T + (tv + duration)`; in particular with `tv + duration = 90`
the touching interval `[T+90, T+120]` does not conflict, while
`[T+89, T+91]` does. -/
theorem find_available_slot_conflict_iff (env : Env) (jt : String) (T : ℚ)
    (addr : String) (tv : ℚ) (events : List Event) (busy : List (ℚ × ℚ))
    (htv : get_travel_time env.travelService env.BASE_ADDRESS addr = .ok tv)
    (hcal : env.calendarService T (T + (tv + (get_job_duration jt : ℚ)))
      = .ok events)
    (hparse : parsedIntervals events = some busy) :
    ((find_available_slot env jt T addr).1 = .ok none
      ↔ ∃ p ∈ busy, p.1 < T + (tv + (get_job_duration jt : ℚ)) ∧ T < p.2)
    ∧ (tv + (get_job_duration jt : ℚ) = 90 → busy = [(T + 90, T + 120)] →
        (find_available_slot env jt T addr).1
          = .ok (some (mkSlot T (T + (tv + (get_job_duration jt : ℚ))) tv
              (get_job_duration jt))))
    ∧ (tv + (get_job_duration jt : ℚ) = 90 → busy = [(T + 89, T + 91)] →
        (find_available_slot env jt T addr).1 = .ok none) := by
  have hany := checkConflict_eq_any events busy T
    (T + (tv + (get_job_duration jt : ℚ))) hparse
  have hbiff : (busy.any fun p =>
        decide (p.1 < T + (tv + (get_job_duration jt : ℚ))) && decide (T < p.2))
        = true
      ↔ ∃ p ∈ busy, p.1 < T + (tv + (get_job_duration jt : ℚ)) ∧ T < p.2 := by
    simp [List.any_eq_true]
  refine ⟨?_, ?_, ?_⟩
  · cases hbv : (busy.any fun p =>
        decide (p.1 < T + (tv + (get_job_duration jt : ℚ))) && decide (T < p.2)) with
    | true =>
      have hrun := find_available_slot_run env jt T addr tv events true htv hcal
        (by rw [hany, hbv])
      rw [hrun]
      simp only [if_true, true_iff]
      exact hbiff.mp hbv
    | false =>
      have hrun := find_available_slot_run env jt T addr tv events false htv hcal
        (by rw [hany, hbv])
      rw [hrun]
      simp only [Bool.false_eq_true, if_false]
      constructor
      · intro hcontra
        simp at hcontra
      · intro hex
        have := hbiff.mpr hex
        rw [hbv] at this
        cases this
  · intro h90 hbusy
    have hnot : ¬ ((T + 90 : ℚ) < T + (tv + (get_job_duration jt : ℚ))) := by
      rw [h90]
      exact lt_irrefl _
    have hbf : (busy.any fun p =>
        decide (p.1 < T + (tv + (get_job_duration jt : ℚ))) && decide (T < p.2))
        = false := by
      rw [hbusy]
      simp [hnot]
    have hrun := find_available_slot_run env jt T addr tv events false htv hcal
      (by rw [hany, hbf])
    rw [hrun]
    simp
  · intro h90 hbusy
    have h1 : (T + 89 : ℚ) < T + (tv + (get_job_duration jt : ℚ)) := by
      rw [h90]
      linarith
    have h2 : T < T + 91 := by linarith
    have hbt : (busy.any fun p =>
        decide (p.1 < T + (tv + (get_job_duration jt : ℚ))) && decide (T < p.2))
        = true := by
      rw [hbusy]
      simp [h1, h2]
    have hrun := find_available_slot_run env jt T addr tv events true htv hcal
      (by rw [hany, hbt])
    rw [hrun]
    simp

/-- Witness for C1: with zero travel and the 90-minute job type
`"boiler service"` requested at 09:00, a busy interval [10:30, 11:00]
(touching the window end 10:30) does not conflict, while [10:29, 10:31]
does. -/
theorem find_available_slot_conflict_iff_witness :
    ((find_available_slot
        ⟨"1 Base Rd", fun _ _ => ⟨none⟩,
         fun _ _ => .ok [⟨⟨some "2024-01-01T10:30:00", none⟩,
                         ⟨some "2024-01-01T11:00:00", none⟩⟩]⟩
        "boiler service" (toMinutes (19723, 32400)) "2 Job St").1
      = .ok (some (mkSlot (toMinutes (19723, 32400))
          (toMinutes (19723, 32400)
            + ((0 : ℚ) + (get_job_duration "boiler service" : ℚ)))
          0 (get_job_duration "boiler service"))))
    ∧ ((find_available_slot
        ⟨"1 Base Rd", fun _ _ => ⟨none⟩,
         fun _ _ => .ok [⟨⟨some "2024-01-01T10:29:00", none⟩,
                         ⟨some "2024-01-01T10:31:00", none⟩⟩]⟩
        "boiler service" (toMinutes (19723, 32400)) "2 Job St").1 = .ok none) := by
  have hd : get_job_duration "boiler service" = 90 := by decide
  have h90 : (0 : ℚ) + (get_job_duration "boiler service" : ℚ) = 90 := by
    rw [hd]; norm_num
  have e1 : parsedIntervals [(⟨⟨some "2024-01-01T10:30:00", none⟩,
      ⟨some "2024-01-01T11:00:00", none⟩⟩ : Event)]
      = some [(toMinutes (19723, 32400) + 90, toMinutes (19723, 32400) + 120)] := by
    have p1 : fromisoParts "2024-01-01T10:30:00" = some (19723, 37800) := by decide
    have p2 : fromisoParts "2024-01-01T11:00:00" = some (19723, 39600) := by decide
    simp only [parsedIntervals, parsedInterval, parseEventInstant, eventTimeStr,
      fromisoformat, p1, p2, Option.map_some]
    norm_num [toMinutes]
  have e2 : parsedIntervals [(⟨⟨some "2024-01-01T10:29:00", none⟩,
      ⟨some "2024-01-01T10:31:00", none⟩⟩ : Event)]
      = some [(toMinutes (19723, 32400) + 89, toMinutes (19723, 32400) + 91)] := by
    have p1 : fromisoParts "2024-01-01T10:29:00" = some (19723, 37740) := by decide
    have p2 : fromisoParts "2024-01-01T10:31:00" = some (19723, 37860) := by decide
    simp only [parsedIntervals, parsedInterval, parseEventInstant, eventTimeStr,
      fromisoformat, p1, p2, Option.map_some]
    norm_num [toMinutes]
  constructor
  · exact (find_available_slot_conflict_iff
      ⟨"1 Base Rd", fun _ _ => ⟨none⟩,
       fun _ _ => .ok [⟨⟨some "2024-01-01T10:30:00", none⟩,
                       ⟨some "2024-01-01T11:00:00", none⟩⟩]⟩
      "boiler service" (toMinutes (19723, 32400)) "2 Job St" 0
      [⟨⟨some "2024-01-01T10:30:00", none⟩, ⟨some "2024-01-01T11:00:00", none⟩⟩]
      [(toMinutes (19723, 32400) + 90, toMinutes (19723, 32400) + 120)]
      rfl rfl e1).2.1 h90 rfl
  · exact (find_available_slot_conflict_iff
      ⟨"1 Base Rd", fun _ _ => ⟨none⟩,
       fun _ _ => .ok [⟨⟨some "2024-01-01T10:29:00", none⟩,
                       ⟨some "2024-01-01T10:31:00", none⟩⟩]⟩
      "boiler service" (toMinutes (19723, 32400)) "2 Job St" 0
      [⟨⟨some "2024-01-01T10:29:00", none⟩, ⟨some "2024-01-01T10:31:00", none⟩⟩]
      [(toMinutes (19723, 32400) + 89, toMinutes (19723, 32400) + 91)]
      rfl rfl e2).2.2 h90 rfl

/-! ### Claim C10: whole-day markers fall back to `date` at midnight -/

/-- C10: for every event-time object lacking `dateTime`, the conflict
test falls back to the `date` field; a date-only string parses with
`fromisoformat` to the midnight instant of its day (zero seconds past
midnight); and a parsed event enters the same strict-inequality overlap
comparison as precise instants. -/
theorem whole_day_fallback (et : EventTime) (ds : String) (n : Int)
    (e : Event) (T E s en : ℚ)
    (h1 : et.dateTime = none)
    (h2 : splitOnChar 'T' ds.data = [ds.data])
    (h3 : parseDate ds.data = some n)
    (h4 : parseEventInstant e.start = .ok s)
    (h5 : parseEventInstant e.«end» = .ok en) :
    eventTimeStr et = et.date
    ∧ fromisoParts ds = some (n, 0)
    ∧ fromisoformat ds = some ((n : ℚ) * 1440)
    ∧ checkConflict [e] T E = .ok (decide (s < E) && decide (T < en)) := by
  have hparts : fromisoParts ds = some (n, 0) := by
    unfold fromisoParts
    rw [h2]
    simp [h3]
  refine ⟨?_, hparts, ?_, ?_⟩
  · unfold eventTimeStr
    rw [h1]
  · unfold fromisoformat
    rw [hparts]
    simp [toMinutes]
  · unfold checkConflict
    simp only [h4]
    by_cases hlt : s < E
    · rw [if_pos hlt]
      simp only [h5]
      by_cases hgt : T < en
      · rw [if_pos hgt]
        simp [hlt, hgt]
      · rw [if_neg hgt]
        simp [checkConflict, hlt, hgt]
    · rw [if_neg hlt]
      simp [checkConflict, hlt]

/-- Witness for C10: a whole-day event [2024-01-01, 2024-01-02) with no
`dateTime` keys is parsed through the `date` fallback to midnight
instants and compared strictly. -/
theorem whole_day_fallback_witness :
    eventTimeStr ⟨none, some "2024-01-02"⟩ = some "2024-01-02"
    ∧ fromisoParts "2024-01-01" = some (19723, 0)
    ∧ fromisoformat "2024-01-01" = some ((19723 : ℚ) * 1440)
    ∧ checkConflict [⟨⟨none, some "2024-01-01"⟩, ⟨none, some "2024-01-02"⟩⟩] 0 1
        = .ok (decide (toMinutes (19723, 0) < 1)
            && decide ((0 : ℚ) < toMinutes (19724, 0))) := by
  have h4 : parseEventInstant (⟨none, some "2024-01-01"⟩ : EventTime)
      = .ok (toMinutes (19723, 0)) := by
    have hx : fromisoParts "2024-01-01" = some (19723, 0) := by decide
    simp [parseEventInstant, eventTimeStr, fromisoformat, hx]
  have h5 : parseEventInstant (⟨none, some "2024-01-02"⟩ : EventTime)
      = .ok (toMinutes (19724, 0)) := by
    have hx : fromisoParts "2024-01-02" = some (19724, 0) := by decide
    simp [parseEventInstant, eventTimeStr, fromisoformat, hx]
  have h := whole_day_fallback ⟨none, some "2024-01-02"⟩ "2024-01-01" 19723
    ⟨⟨none, some "2024-01-01"⟩, ⟨none, some "2024-01-02"⟩⟩ 0 1
    (toMinutes (19723, 0)) (toMinutes (19724, 0))
    rfl (by decide) (by decide) h4 h5
  exact ⟨h.1, h.2.1, h.2.2.1, h.2.2.2⟩

/-! ### Claim C7: the exact response shapes of the handler -/

/-- Any slot the resolver returns is the dictionary built by `mkSlot`
at the requested time. -/
lemma find_available_slot_slot_shape (env : Env) (jt : String) (T : ℚ)
    (addr : String) (s : List (String × JValue)) (calls : List Call)
    (h : find_available_slot env jt T addr = (.ok (some s), calls)) :
    ∃ tv, s = mkSlot T (T + (tv + (get_job_duration jt : ℚ))) tv
      (get_job_duration jt) := by
  unfold find_available_slot get_calendar_events at h
  dsimp only at h
  split at h
  · simp at h
  · split at h
    · simp at h
    · split at h
      · simp at h
      · simp at h
      · simp only [Prod.mk.injEq, Except.ok.injEq, Option.some.injEq] at h
        exact ⟨_, h.1.symm⟩

/-- The counterexample to C7 as stated: on a valid request with no
conflict, the handler's slot object carries the key
`"job_duration_minutes"`, and no key `"duration_minutes"` exists. -/
theorem get_open_slots_slot_field_names_counterexample :
    (get_open_slots
        ⟨"1 Base Rd", fun _ _ => ⟨none⟩, fun _ _ => .ok []⟩
        [("job_type", .str "leak"), ("requested_time", .str "2024-01-01T09:00:00"),
         ("job_address", .str "2 Job St")]).1
      = .json (.obj [("available", .bool true),
          ("slot", .obj (mkSlot (toMinutes (19723, 32400))
            (toMinutes (19723, 32400) + ((0 : ℚ) + (get_job_duration "leak" : ℚ)))
            0 (get_job_duration "leak")))])
    ∧ (mkSlot (toMinutes (19723, 32400))
        (toMinutes (19723, 32400) + ((0 : ℚ) + (get_job_duration "leak" : ℚ)))
        0 (get_job_duration "leak")).map Prod.fst
      = ["engineer", "start", "end", "travel_time_minutes", "job_duration_minutes"]
    ∧ "duration_minutes" ∉ (mkSlot (toMinutes (19723, 32400))
        (toMinutes (19723, 32400) + ((0 : ℚ) + (get_job_duration "leak" : ℚ)))
        0 (get_job_duration "leak")).map Prod.fst := by
  refine ⟨?_, by simp [mkSlot], by simp [mkSlot]⟩
  have hx : fromisoParts "2024-01-01T09:00:00" = some (19723, 32400) := by decide
  have hval : parseJobRequest
      [("job_type", .str "leak"), ("requested_time", .str "2024-01-01T09:00:00"),
       ("job_address", .str "2 Job St")]
      = .ok ⟨"leak", toMinutes (19723, 32400), "2 Job St"⟩ := by
    simp [parseJobRequest, lookupStr, fromisoformat, hx]
  have hrun := find_available_slot_run
    ⟨"1 Base Rd", fun _ _ => ⟨none⟩, fun _ _ => .ok []⟩
    "leak" (toMinutes (19723, 32400)) "2 Job St" 0 [] false rfl rfl
    (by simp [checkConflict])
  simp [get_open_slots, hval, hrun]

/-- C7 (amended): for every valid request whose resolver run completes
without an exception, the handler's response is either
`{available: true, slot: {engineer, start, end, travel_time_minutes,
job_duration_minutes}}` or `{available: false, message: string}` —
exactly these two shapes, with `job_duration_minutes` (not
`duration_minutes`) as the duration key. -/
theorem get_open_slots_response_shapes (env : Env)
    (data : List (String × JValue)) (job : JobRequest)
    (hval : parseJobRequest data = .ok job)
    (hok : ∀ e calls,
      find_available_slot env job.job_type job.requested_time job.job_address
        ≠ (.error e, calls)) :
    ((∃ tv, (get_open_slots env data).1
        = .json (.obj [("available", .bool true),
            ("slot", .obj (mkSlot job.requested_time
              (job.requested_time + (tv + (get_job_duration job.job_type : ℚ)))
              tv (get_job_duration job.job_type)))]))
      ∨ (get_open_slots env data).1
          = .json (.obj [("available", .bool false),
              ("message", .str "No slots available")]))
    ∧ (∀ T E tv dur, (mkSlot T E tv dur).map Prod.fst
        = ["engineer", "start", "end", "travel_time_minutes",
           "job_duration_minutes"]) := by
  refine ⟨?_, fun T E tv dur => by simp [mkSlot]⟩
  rcases hfa : find_available_slot env job.job_type job.requested_time
    job.job_address with ⟨res, calls⟩
  cases res with
  | error e => exact absurd hfa (hok e calls)
  | ok oslot =>
    cases oslot with
    | none =>
      right
      simp [get_open_slots, hval, hfa]
    | some s =>
      left
      obtain ⟨tv, hs⟩ := find_available_slot_slot_shape env job.job_type
        job.requested_time job.job_address s calls hfa
      exact ⟨tv, by simp [get_open_slots, hval, hfa, hs]⟩

/-- Witness for C7 (amended): on a concrete conflict-free request the
response takes the `available: true` shape with the `mkSlot` keys. -/
theorem get_open_slots_response_shapes_witness :
    ((∃ tv, (get_open_slots
        ⟨"1 Base Rd", fun _ _ => ⟨none⟩, fun _ _ => .ok []⟩
        [("job_type", .str "leak"), ("requested_time", .str "2024-01-01T09:00:00"),
         ("job_address", .str "2 Job St")]).1
        = .json (.obj [("available", .bool true),
            ("slot", .obj (mkSlot (toMinutes (19723, 32400))
              (toMinutes (19723, 32400) + (tv + (get_job_duration "leak" : ℚ)))
              tv (get_job_duration "leak")))]))
      ∨ (get_open_slots
          ⟨"1 Base Rd", fun _ _ => ⟨none⟩, fun _ _ => .ok []⟩
          [("job_type", .str "leak"), ("requested_time", .str "2024-01-01T09:00:00"),
           ("job_address", .str "2 Job St")]).1
          = .json (.obj [("available", .bool false),
              ("message", .str "No slots available")]))
    ∧ (∀ T E tv dur, (mkSlot T E tv dur).map Prod.fst
        = ["engineer", "start", "end", "travel_time_minutes",
           "job_duration_minutes"]) := by
  have hx : fromisoParts "2024-01-01T09:00:00" = some (19723, 32400) := by decide
  have hval : parseJobRequest
      [("job_type", .str "leak"), ("requested_time", .str "2024-01-01T09:00:00"),
       ("job_address", .str "2 Job St")]
      = .ok ⟨"leak", toMinutes (19723, 32400), "2 Job St"⟩ := by
    simp [parseJobRequest, lookupStr, fromisoformat, hx]
  have hrun := find_available_slot_run
    ⟨"1 Base Rd", fun _ _ => ⟨none⟩, fun _ _ => .ok []⟩
    "leak" (toMinutes (19723, 32400)) "2 Job St" 0 [] false rfl rfl
    (by simp [checkConflict])
  exact get_open_slots_response_shapes
    ⟨"1 Base Rd", fun _ _ => ⟨none⟩, fun _ _ => .ok []⟩
    [("job_type", .str "leak"), ("requested_time", .str "2024-01-01T09:00:00"),
     ("job_address", .str "2 Job St")]
    ⟨"leak", toMinutes (19723, 32400), "2 Job St"⟩ hval
    (by intro e calls hcontra; rw [hrun] at hcontra; simp at hcontra)

end AiScript
